import Mathlib

/-!
Shallow embedding of the `multi_agent_doc_system` document ingestion pipeline
(`pdf_processor.py` and `indexing_agent.py`).

The filesystem is modelled as a map from paths to `FileOutcome`: what happens
when `PyPDF2.PdfReader` is opened on that path.  Python dictionaries returned
by the pipeline are modelled as structures of `Option` fields, where `none`
means the key is absent from the dictionary.
-/

/-- Encryption state of a PDF as seen by `PyPDF2.PdfReader`:
not encrypted at all, encrypted but `reader.decrypt('')` succeeds,
or encrypted and `reader.decrypt('')` raises. -/
inductive Encryption where
  | notEncrypted
  | emptyPassword
  | locked
deriving Repr, DecidableEq

/-- The document-information part of a PDF, as exposed by `reader.metadata`
and its `get_object()`.  `rawPresent` models `metadata.get_object()` being
truthy; `creationDate`/`modDate` model the raw `/CreationDate` and `/ModDate`
entries (`none` when the key is absent). -/
structure PdfMeta where
  title : Option String
  author : Option String
  subject : Option String
  creator : Option String
  producer : Option String
  rawPresent : Bool
  creationDate : Option String
  modDate : Option String
deriving Repr, DecidableEq

/-- What opening a path with `PyPDF2.PdfReader` does:
`missing` raises `FileNotFoundError`, `corrupt` raises `PdfReadError` with the
given message, `otherError` raises some other `Exception`, and `pdf` opens
successfully with the given encryption state, per-page `extract_text()`
results, and document metadata (`none` models `reader.metadata is None`). -/
inductive FileOutcome where
  | missing
  | corrupt (msg : String)
  | otherError (msg : String)
  | pdf (enc : Encryption) (pages : List String) (meta : Option PdfMeta)
deriving Repr, DecidableEq

/-- Result of `extract_metadata_from_pdf`: either the error dictionary
`{"Error": msg, "FilePath": path}`, or the populated metadata dictionary when
`reader.metadata` is truthy, or the page-count-only dictionary when
`reader.metadata` is falsy. -/
inductive MetadataResult where
  | err (msg : String) (filePath : String)
  | full (title author subject creator producer creationDate modDate : Option String)
      (pageCount : Nat)
  | pageOnly (pageCount : Nat)
deriving Repr, DecidableEq

/-- Python truthiness filter on an optional string: `str(x) if x else None`.
An absent or empty value collapses to `None`. -/
def pyTruthyStr : Option String → Option String
  | some s => if s = "" then none else some s
  | none => none

/-- `pdf_processor.extract_text_from_pdf(pdf_path, method)`.  Only the
`"pypdf2"` method extracts; every exception path and the undecryptable case
return the empty string.  Pages whose `extract_text()` is falsy (empty) are
dropped and the rest are joined with a newline. -/
def extract_text_from_pdf (fs : String → FileOutcome) (pdf_path : String)
    (method : String) : String :=
  if method = "pypdf2" then
    match fs pdf_path with
    | .missing => ""
    | .corrupt _ => ""
    | .otherError _ => ""
    | .pdf enc pages _ =>
      match enc with
      | .locked => ""
      | _ =>
        if pages ≠ [] then
          String.intercalate "\n" (pages.filter (fun p => p ≠ ""))
        else ""
  else ""

/-- `pdf_processor.extract_metadata_from_pdf(pdf_path)`.  Exceptions and
decryption failure produce an error dictionary carrying the path; otherwise
the metadata dictionary is built from `reader.metadata` (dates come from the
raw object and pass through a truthiness check). -/
def extract_metadata_from_pdf (fs : String → FileOutcome) (pdf_path : String) :
    MetadataResult :=
  match fs pdf_path with
  | .missing => .err "File not found." pdf_path
  | .corrupt pre => .err ("PyPDF2 PdfReadError: " ++ pre) pdf_path
  | .otherError e => .err ("Unexpected error: " ++ e) pdf_path
  | .pdf enc pages meta =>
    match enc with
    | .locked => .err "Encrypted PDF, decryption failed." pdf_path
    | _ =>
      match meta with
      | none => .pageOnly (if pages ≠ [] then pages.length else 0)
      | some m =>
        .full m.title m.author m.subject m.creator m.producer
          (if m.rawPresent then pyTruthyStr m.creationDate else none)
          (if m.rawPresent then pyTruthyStr m.modDate else none)
          (if pages ≠ [] then pages.length else 0)

/-- The dictionary an `IndexingAgent` processing method returns, modelled as
one structure of optional fields; `none` means the key is absent. -/
structure DocumentRecord where
  error : Option String
  path : Option String
  file_path : Option String
  metadata : Option MetadataResult
  extracted_text_snippet : Option String
  full_text_char_count : Option Nat
  summary : Option String
  classification : Option String
  indexing_status : Option String
deriving Repr, DecidableEq

/-- `IndexingAgent._summarize_text(text, max_chars)`: a fixed marker on empty
input; otherwise the placeholder-summary prefix followed by the text,
truncated with `"..."` when it exceeds `max_chars`. -/
def _summarize_text (text : String) (max_chars : Nat) : String :=
  if text = "" then "No text provided for summarization."
  else
    "[Placeholder Summary]: " ++
      (if text.length > max_chars then text.take max_chars ++ "..." else text)

/-- `IndexingAgent._classify_document(text)`: a fixed marker on empty input;
otherwise a fixed placeholder label. -/
def _classify_document (text : String) : String :=
  if text = "" then "No text provided for classification."
  else "[Placeholder Classification]: General Legal Document"

/-- `IndexingAgent.process_pdf_document(pdf_path)`, parametrised over the
outcome of the two extractor calls in its `try` block: `.error e` models an
exception escaping them (the `except` branch returns
`{"error": str(e), "path": pdf_path}`), `.ok (text, metadata)` models them
returning normally. -/
def process_pdf_document (extraction : Except String (String × MetadataResult))
    (pdf_path : String) : DocumentRecord :=
  match extraction with
  | .error e =>
    { error := some e, path := some pdf_path, file_path := none, metadata := none,
      extracted_text_snippet := none, full_text_char_count := none,
      summary := none, classification := none, indexing_status := none }
  | .ok (text, metadata) =>
    { error := none, path := none
      file_path := some pdf_path
      metadata := some metadata
      extracted_text_snippet := some (if text ≠ "" then text.take 200 ++ "..." else "N/A")
      full_text_char_count := some (if text ≠ "" then text.length else 0)
      summary := some (_summarize_text text 500)
      classification := some (_classify_document text)
      indexing_status := none }

/-- `process_pdf_document` run against the modelled filesystem.  The two
extractor functions catch every exception, so the call never lands in the
`except` branch. -/
def process_pdf_document_fs (fs : String → FileOutcome) (pdf_path : String) :
    DocumentRecord :=
  process_pdf_document
    (.ok (extract_text_from_pdf fs pdf_path "pypdf2", extract_metadata_from_pdf fs pdf_path))
    pdf_path

/-- The LightRAG binding constructed by `initialize_lightrag`.  `generation`
models the identity of the freshly constructed Python object: each run of the
constructor yields a new, distinct instance. -/
structure EngineInstance where
  working_dir : String
  embedder_model : String
  llm_model : String
  api_key : String
  generation : Nat
deriving Repr, DecidableEq

/-- Mutable state of an `IndexingAgent`: its credential, the
`lightrag_instance` attribute (`none` models Python `None`), how many engine
constructions have run so far (supplying fresh instance identities), and the
directories `os.makedirs` has created. -/
structure AgentState where
  api_key : String
  lightrag_instance : Option EngineInstance
  constructions : Nat
  dirs : List String
deriving Repr, DecidableEq

/-- `IndexingAgent.initialize_lightrag(working_dir)`.  It always runs
`os.makedirs(working_dir, exist_ok=True)` and then unconditionally constructs
a fresh `LightRAG` instance inside a `try`; `construct_ok` models whether that
construction raises (on exception the instance attribute is set to `None`). -/
def initialize_lightrag (construct_ok : Bool) (st : AgentState)
    (working_dir : String) : AgentState :=
  let dirs := if working_dir ∈ st.dirs then st.dirs else working_dir :: st.dirs
  if construct_ok then
    { st with
      lightrag_instance := some
        { working_dir := working_dir, embedder_model := "text-embedding-ada-002",
          llm_model := "gpt-4o-mini", api_key := st.api_key,
          generation := st.constructions }
      constructions := st.constructions + 1
      dirs := dirs }
  else
    { st with lightrag_instance := none, dirs := dirs }

/-- `IndexingAgent.aprocess_pdf_document_and_index(pdf_path)`, parametrised
like `process_pdf_document` over the first extraction outcome, and over the
re-extracted full text (line 118 of the source calls the extractor a second
time).  A falsy (`None`) `lightrag_instance` returns `None`; an error record
from the first pass is returned verbatim; otherwise an `indexing_status` key
is added.  The `ainsert` call is commented out in the source, so the non-empty
text branch always records the simulated success status. -/
def aprocess_pdf_document_and_index (st : AgentState)
    (extraction : Except String (String × MetadataResult))
    (reextracted_text : String) (pdf_path : String) : Option DocumentRecord :=
  match st.lightrag_instance with
  | none => none
  | some _ =>
    let processed_info := process_pdf_document extraction pdf_path
    if processed_info.error.isSome then
      some processed_info
    else
      let full_text := reextracted_text
      if full_text ≠ "" then
        some { processed_info with
               indexing_status := some "Simulated as successfully indexed by LightRAG" }
      else
        some { processed_info with indexing_status := some "Skipped (no text)" }

/-- `aprocess_pdf_document_and_index` run against the modelled filesystem:
both the first extraction and the re-extraction read the same file. -/
def aprocess_pdf_document_and_index_fs (st : AgentState)
    (fs : String → FileOutcome) (pdf_path : String) : Option DocumentRecord :=
  aprocess_pdf_document_and_index st
    (.ok (extract_text_from_pdf fs pdf_path "pypdf2", extract_metadata_from_pdf fs pdf_path))
    (extract_text_from_pdf fs pdf_path "pypdf2") pdf_path

/-! ### Concrete fixtures used by counterexamples and witnesses -/

/-- A filesystem holding one valid single-page PDF `doc.pdf` whose page text
is exactly `"Hello World"`. -/
def fsHello : String → FileOutcome := fun p =>
  if p = "doc.pdf" then .pdf .notEncrypted ["Hello World"] none else .missing

/-- An agent state whose LightRAG handle is initialized (ready). -/
def stReady : AgentState :=
  { api_key := "k"
    lightrag_instance := some
      { working_dir := "./lightrag_data", embedder_model := "text-embedding-ada-002",
        llm_model := "gpt-4o-mini", api_key := "k", generation := 0 }
    constructions := 1
    dirs := ["./lightrag_data"] }

/-- An agent state whose LightRAG handle is uninitialized (`None`). -/
def stUninit : AgentState :=
  { api_key := "k", lightrag_instance := none, constructions := 0, dirs := [] }

/-- The record the full pipeline produces for `doc.pdf` in `fsHello` with a
ready handle. -/
def rHello : DocumentRecord :=
  { error := none, path := none
    file_path := some "doc.pdf"
    metadata := some (.pageOnly 1)
    extracted_text_snippet := some "Hello World..."
    full_text_char_count := some 11
    summary := some "[Placeholder Summary]: Hello World"
    classification := some "[Placeholder Classification]: General Legal Document"
    indexing_status := some "Simulated as successfully indexed by LightRAG" }

/-! ### C1 -/

/-- C1 as stated is false: with an uninitialized handle,
`aprocess_pdf_document_and_index` on a valid document returns `None` — there
is no DocumentRecord at all, so no `indexingStatus` and no derived fields. -/
theorem C1_counterexample :
    stUninit.lightrag_instance = none ∧
    fsHello "doc.pdf" = .pdf .notEncrypted ["Hello World"] none ∧
    aprocess_pdf_document_and_index_fs stUninit fsHello "doc.pdf" = none := by
  refine ⟨rfl, by decide, rfl⟩

/-- C1 (amended): for every path and filesystem, calling
`aprocess_pdf_document_and_index` when the RAG engine handle is uninitialized
returns `None` (no DocumentRecord) without raising; derivation does not run
and no fields are produced. -/
theorem C1_uninitialized_returns_none (st : AgentState)
    (fs : String → FileOutcome) (path : String)
    (h : st.lightrag_instance = none) :
    aprocess_pdf_document_and_index_fs st fs path = none := by
  unfold aprocess_pdf_document_and_index_fs aprocess_pdf_document_and_index
  rw [h]

/-- C1 witness: the amended statement at the concrete uninitialized state. -/
theorem C1_witness :
    aprocess_pdf_document_and_index_fs stUninit fsHello "doc.pdf" = none :=
  C1_uninitialized_returns_none stUninit fsHello "doc.pdf" rfl

/-! ### C2 -/

/-- The terminal-error / populated-fields invariant that records of the
synchronous `process_pdf_document` actually satisfy: an `error` key excludes
all later-stage keys; without `error`, summary and classification are present
and `indexing_status` is absent (the synchronous method never sets it). -/
def syncRecordInvariant (r : DocumentRecord) : Bool :=
  if r.error.isSome then
    r.summary.isNone && r.classification.isNone && r.indexing_status.isNone
  else
    r.summary.isSome && r.classification.isSome && r.indexing_status.isNone

/-- The invariant that records returned by
`aprocess_pdf_document_and_index` (when it returns a record at all) satisfy:
an `error` key excludes all later-stage keys; without `error`, summary,
classification and exactly one `indexing_status` are present. -/
def asyncRecordInvariant (r : DocumentRecord) : Bool :=
  if r.error.isSome then
    r.summary.isNone && r.classification.isNone && r.indexing_status.isNone
  else
    r.summary.isSome && r.classification.isSome && r.indexing_status.isSome

/-- C2 as stated is false: a record produced by `process_pdf_document` on a
valid document has no `error` field yet also carries no `indexing_status`
key, contradicting "exactly one indexingStatus". -/
theorem C2_counterexample :
    (process_pdf_document_fs fsHello "doc.pdf").error = none ∧
    (process_pdf_document_fs fsHello "doc.pdf").indexing_status = none := by
  exact ⟨rfl, rfl⟩

/-- C2 (amended): records of `process_pdf_document` satisfy: `error` present
implies summary/classification/indexing_status absent, and `error` absent
implies summary and classification present with no `indexing_status`; records
returned (as `some r`) by `aprocess_pdf_document_and_index` satisfy the same
error clause, and when `error` is absent carry exactly one
`indexing_status`. -/
theorem C2_record_invariants (ex : Except String (String × MetadataResult))
    (pdf_path : String) (st : AgentState) (reextracted_text : String)
    (r : DocumentRecord)
    (h : aprocess_pdf_document_and_index st ex reextracted_text pdf_path = some r) :
    syncRecordInvariant (process_pdf_document ex pdf_path) = true ∧
    asyncRecordInvariant r = true := by
  constructor
  · cases ex with
    | error e => simp [process_pdf_document, syncRecordInvariant]
    | ok p => cases p with
      | mk text md => simp [process_pdf_document, syncRecordInvariant]
  · unfold aprocess_pdf_document_and_index at h
    cases hinst : st.lightrag_instance with
    | none => rw [hinst] at h; simp at h
    | some inst =>
      rw [hinst] at h
      simp only at h
      cases ex with
      | error e =>
        rw [if_pos (by simp [process_pdf_document])] at h
        have hr : r = process_pdf_document (.error e) pdf_path :=
          (Option.some.injEq _ _ ▸ h).symm
        rw [hr]
        simp [process_pdf_document, asyncRecordInvariant]
      | ok p =>
        cases p with
        | mk text md =>
          rw [if_neg (by simp [process_pdf_document])] at h
          by_cases htext : reextracted_text ≠ ""
          · rw [if_pos htext] at h
            have hr := (Option.some.injEq _ _ ▸ h).symm
            rw [hr]
            simp [process_pdf_document, asyncRecordInvariant]
          · rw [if_neg htext] at h
            have hr := (Option.some.injEq _ _ ▸ h).symm
            rw [hr]
            simp [process_pdf_document, asyncRecordInvariant]

set_option maxRecDepth 8000 in
/-- C2 witness: the amended invariants at the concrete "Hello World"
pipeline run. -/
theorem C2_witness :
    syncRecordInvariant
      (process_pdf_document (.ok ("Hello World", .pageOnly 1)) "doc.pdf") = true ∧
    asyncRecordInvariant rHello = true :=
  C2_record_invariants (.ok ("Hello World", .pageOnly 1)) "doc.pdf" stReady
    "Hello World" rHello (by rfl)

/-! ### C3 -/

/-- C3 as stated is false: on a nonexistent path, `process_pdf_document`
returns a record whose `error` key is absent — the extractors swallow the
failure, derivation runs on empty text, and the record is fully populated
(with the extractor's error dictionary only inside the `metadata` field). -/
theorem C3_counterexample :
    process_pdf_document_fs (fun _ => .missing) "nope.pdf" =
      { error := none, path := none
        file_path := some "nope.pdf"
        metadata := some (.err "File not found." "nope.pdf")
        extracted_text_snippet := some "N/A"
        full_text_char_count := some 0
        summary := some "No text provided for summarization."
        classification := some "No text provided for classification."
        indexing_status := none } := by
  rfl

/-- C3 (amended): for every path that refers to no existing file,
`process_pdf_document` returns a record WITHOUT the `error` field; the
extraction failure surfaces only as the metadata error dictionary (which
carries the path), the snippet is the `"N/A"` sentinel, the text length is 0,
and summary/classification are the explicit no-input markers — derivation
runs on the empty text and no `indexing_status` is set. -/
theorem C3_missing_file (fs : String → FileOutcome) (path : String)
    (h : fs path = .missing) :
    process_pdf_document_fs fs path =
      { error := none, path := none
        file_path := some path
        metadata := some (.err "File not found." path)
        extracted_text_snippet := some "N/A"
        full_text_char_count := some 0
        summary := some "No text provided for summarization."
        classification := some "No text provided for classification."
        indexing_status := none } := by
  unfold process_pdf_document_fs extract_text_from_pdf extract_metadata_from_pdf
  rw [h]
  rfl

/-- C3 witness: the amended statement at a concrete all-missing filesystem. -/
theorem C3_witness :
    process_pdf_document_fs (fun _ => .missing) "gone.pdf" =
      { error := none, path := none
        file_path := some "gone.pdf"
        metadata := some (.err "File not found." "gone.pdf")
        extracted_text_snippet := some "N/A"
        full_text_char_count := some 0
        summary := some "No text provided for summarization."
        classification := some "No text provided for classification."
        indexing_status := none } :=
  C3_missing_file (fun _ => .missing) "gone.pdf" rfl

/-! ### C4 -/

set_option maxRecDepth 8000 in
/-- C4 as stated is false: on the single-page "Hello World" document with a
ready handle, the pipeline's `extracted_text_snippet` is
`"Hello World..."` (the snippet code appends `"..."` whenever the text is
non-empty), not `"Hello World"`. -/
theorem C4_counterexample :
    aprocess_pdf_document_and_index_fs stReady fsHello "doc.pdf" = some rHello ∧
    rHello.extracted_text_snippet = some "Hello World..." ∧
    rHello.extracted_text_snippet ≠ some "Hello World" := by
  refine ⟨by rfl, rfl, by decide⟩

set_option maxRecDepth 8000 in
/-- C4 (amended): for any ready handle and any filesystem in which the path
is a single-page unencrypted document with page text exactly "Hello World",
the pipeline yields a record with `full_text_char_count = 11`,
`extracted_text_snippet = "Hello World..."` (truncation marker appended to
the snippet of every non-empty text), placeholder-marked summary and
classification, and the simulated-success indexing status. -/
theorem C4_hello_world (st : AgentState) (fs : String → FileOutcome)
    (path : String) (meta : Option PdfMeta)
    (h1 : st.lightrag_instance.isSome = true)
    (h2 : fs path = .pdf .notEncrypted ["Hello World"] meta) :
    (aprocess_pdf_document_and_index_fs st fs path).map
      (fun r => (r.full_text_char_count, r.extracted_text_snippet, r.summary,
                 r.classification, r.indexing_status)) =
      some (some 11, some "Hello World...",
            some "[Placeholder Summary]: Hello World",
            some "[Placeholder Classification]: General Legal Document",
            some "Simulated as successfully indexed by LightRAG") := by
  have htext : extract_text_from_pdf fs path "pypdf2" = "Hello World" := by
    unfold extract_text_from_pdf
    rw [h2]
    rfl
  cases hinst : st.lightrag_instance with
  | none => rw [hinst] at h1; simp at h1
  | some inst =>
    unfold aprocess_pdf_document_and_index_fs aprocess_pdf_document_and_index
    rw [hinst, htext]
    rfl

set_option maxRecDepth 8000 in
/-- C4 witness: the amended statement at the concrete ready state and
"Hello World" filesystem. -/
theorem C4_witness :
    (aprocess_pdf_document_and_index_fs stReady fsHello "doc.pdf").map
      (fun r => (r.full_text_char_count, r.extracted_text_snippet, r.summary,
                 r.classification, r.indexing_status)) =
      some (some 11, some "Hello World...",
            some "[Placeholder Summary]: Hello World",
            some "[Placeholder Classification]: General Legal Document",
            some "Simulated as successfully indexed by LightRAG") :=
  C4_hello_world stReady fsHello "doc.pdf" none rfl (by decide)

/-! ### C5 -/

/-- C5 as stated is false: even for short non-empty input, `_summarize_text`
does not return the input itself — it prepends the placeholder-summary
marker. -/
theorem C5_counterexample :
    ("a" : String) ≠ "" ∧ ("a" : String).length ≤ 500 ∧
    _summarize_text "a" 500 = "[Placeholder Summary]: a" ∧
    _summarize_text "a" 500 ≠ "a" := by
  refine ⟨by decide, by decide, rfl, by decide⟩

/-- C5 (amended): for every non-empty text `t` with length at most
`maxLength`, `_summarize_text t maxLength` returns the placeholder-summary
marker followed by `t` unchanged; no truncation marker is appended. -/
theorem C5_short_text_kept (t : String) (maxLength : Nat)
    (h1 : t ≠ "") (h2 : t.length ≤ maxLength) :
    _summarize_text t maxLength = "[Placeholder Summary]: " ++ t := by
  unfold _summarize_text
  rw [if_neg h1, if_neg (by omega)]

/-- C5 witness: the amended statement at a concrete short input. -/
theorem C5_witness :
    _summarize_text "a" 500 = "[Placeholder Summary]: " ++ "a" :=
  C5_short_text_kept "a" 500 (by decide) (by decide)

/-! ### C6 -/

/-- C6 as stated is false: for over-long input the returned string does not
start with the first `maxLength` units of `t` — it starts with the
placeholder-summary marker (its first 3 units are `"[Pl"`, not `"abc"`). -/
theorem C6_counterexample :
    _summarize_text "abcdef" 3 = "[Placeholder Summary]: abc..." ∧
    ("[Placeholder Summary]: abc..." : String).take 3 = "[Pl" ∧
    ("[Pl" : String) ≠ "abc" ∧
    ("abcdef" : String).take 3 = "abc" := by
  refine ⟨rfl, rfl, by decide, rfl⟩

/-- C6 (amended): for every non-empty text `t` with length strictly greater
than `maxLength`, `_summarize_text t maxLength` returns the
placeholder-summary marker, followed by the first `maxLength` units of `t`,
followed by the truncation marker `"..."` (so it ends with the truncation
marker but begins with the placeholder marker). -/
theorem C6_long_text_truncated (t : String) (maxLength : Nat)
    (h1 : t ≠ "") (h2 : maxLength < t.length) :
    _summarize_text t maxLength =
      "[Placeholder Summary]: " ++ (t.take maxLength ++ "...") := by
  unfold _summarize_text
  rw [if_neg h1, if_pos h2]

/-- C6 witness: the amended statement at a concrete over-long input. -/
theorem C6_witness :
    _summarize_text "abcdef" 3 =
      "[Placeholder Summary]: " ++ (("abcdef" : String).take 3 ++ "...") :=
  C6_long_text_truncated "abcdef" 3 (by decide) (by decide)

/-! ### C7 -/

/-- C7: on empty input, `_summarize_text` (for any `max_chars`) and
`_classify_document` return their explicit no-input marker strings, and in
particular never return the empty string. -/
theorem C7_empty_input_markers (max_chars : Nat) :
    _summarize_text "" max_chars = "No text provided for summarization." ∧
    _summarize_text "" max_chars ≠ "" ∧
    _classify_document "" = "No text provided for classification." ∧
    _classify_document "" ≠ "" := by
  have h1 : _summarize_text "" max_chars = "No text provided for summarization." := rfl
  refine ⟨h1, by rw [h1]; decide, rfl, by decide⟩

/-! ### C8 -/

/-- The file outcomes on which extraction fails: missing file, corrupt
structure (`PdfReadError`), any other open-time exception, or an encrypted
file whose empty-password decryption fails. -/
def isBadOutcome : FileOutcome → Bool
  | .missing => true
  | .corrupt _ => true
  | .otherError _ => true
  | .pdf enc _ _ =>
    match enc with
    | .locked => true
    | _ => false

/-- C8: for every missing or corrupt (including undecryptable) file path,
`extract_text_from_pdf` returns the empty string and
`extract_metadata_from_pdf` returns an error record that contains the path;
both are total functions, so neither raises. -/
theorem C8_extractor_failure (fs : String → FileOutcome) (path : String)
    (h : isBadOutcome (fs path) = true) :
    extract_text_from_pdf fs path "pypdf2" = "" ∧
    ∃ msg, extract_metadata_from_pdf fs path = .err msg path := by
  cases hfs : fs path with
  | missing =>
    exact ⟨by simp [extract_text_from_pdf, hfs],
           "File not found.", by simp [extract_metadata_from_pdf, hfs]⟩
  | corrupt m =>
    exact ⟨by simp [extract_text_from_pdf, hfs],
           "PyPDF2 PdfReadError: " ++ m, by simp [extract_metadata_from_pdf, hfs]⟩
  | otherError m =>
    exact ⟨by simp [extract_text_from_pdf, hfs],
           "Unexpected error: " ++ m, by simp [extract_metadata_from_pdf, hfs]⟩
  | pdf enc pages meta =>
    cases enc with
    | notEncrypted => rw [hfs] at h; simp [isBadOutcome] at h
    | emptyPassword => rw [hfs] at h; simp [isBadOutcome] at h
    | locked =>
      exact ⟨by simp [extract_text_from_pdf, hfs],
             "Encrypted PDF, decryption failed.",
             by simp [extract_metadata_from_pdf, hfs]⟩

/-- C8 witness: the statement at a concrete all-missing filesystem. -/
theorem C8_witness :
    extract_text_from_pdf (fun _ => .missing) "x.pdf" "pypdf2" = "" ∧
    ∃ msg, extract_metadata_from_pdf (fun _ => .missing) "x.pdf" = .err msg "x.pdf" :=
  C8_extractor_failure (fun _ => .missing) "x.pdf" rfl

/-! ### C9 -/

/-- C9 as stated is false: after a successful first call, a second
`initialize_lightrag` call changes the agent state — it runs the engine
constructor again (the construction count rises from 1 to 2) and replaces
`lightrag_instance` with a freshly constructed object. -/
theorem C9_counterexample :
    initialize_lightrag true (initialize_lightrag true stUninit "./lightrag_data")
        "./lightrag_data"
      ≠ initialize_lightrag true stUninit "./lightrag_data" ∧
    (initialize_lightrag true (initialize_lightrag true stUninit "./lightrag_data")
        "./lightrag_data").constructions = 2 ∧
    (initialize_lightrag true stUninit "./lightrag_data").constructions = 1 := by
  refine ⟨by decide, rfl, rfl⟩

/-- C9 (amended): re-invoking `initialize_lightrag` after a successful first
call is safe but not idempotent: it unconditionally constructs the engine
binding again (the construction count increases by one) and replaces the
handle with the new, distinct instance; the instance configuration
(working directory, model names, credential) is the same, and the set of
created directories is unchanged (`os.makedirs` is exists-ok). -/
theorem C9_reinitialization_reconstructs (st : AgentState) (wd : String) :
    (initialize_lightrag true (initialize_lightrag true st wd) wd).constructions
      = (initialize_lightrag true st wd).constructions + 1 ∧
    (initialize_lightrag true (initialize_lightrag true st wd) wd).lightrag_instance
      ≠ (initialize_lightrag true st wd).lightrag_instance ∧
    (initialize_lightrag true (initialize_lightrag true st wd) wd).lightrag_instance
      = some { working_dir := wd, embedder_model := "text-embedding-ada-002",
               llm_model := "gpt-4o-mini", api_key := st.api_key,
               generation := st.constructions + 1 } ∧
    (initialize_lightrag true (initialize_lightrag true st wd) wd).dirs
      = (initialize_lightrag true st wd).dirs := by
  have hmem : wd ∈ (if wd ∈ st.dirs then st.dirs else wd :: st.dirs) := by
    by_cases h : wd ∈ st.dirs
    · simp [h]
    · simp [h]
  refine ⟨by simp [initialize_lightrag], ?_, by simp [initialize_lightrag],
          by simp [initialize_lightrag, hmem]⟩
  intro h
  simp only [initialize_lightrag, Option.some.injEq, EngineInstance.mk.injEq,
             if_true] at h
  omega

/-! ### C10 -/

/-- C10: for every filesystem, path and method other than `"pypdf2"`,
`extract_text_from_pdf` returns the empty string without looking at the file,
which is the same value it returns for a missing file — a non-default method
is indistinguishable, at the return value, from extraction failure. -/
theorem C10_non_default_method (fs : String → FileOutcome)
    (path method : String) (h : method ≠ "pypdf2") :
    extract_text_from_pdf fs path method = "" ∧
    extract_text_from_pdf fs path method
      = extract_text_from_pdf (fun _ => .missing) path "pypdf2" := by
  unfold extract_text_from_pdf
  rw [if_neg h]
  exact ⟨rfl, rfl⟩

/-- C10 witness: the statement at the `"unstructured"` method the source's
test block actually passes. -/
theorem C10_witness :
    extract_text_from_pdf fsHello "doc.pdf" "unstructured" = "" ∧
    extract_text_from_pdf fsHello "doc.pdf" "unstructured"
      = extract_text_from_pdf (fun _ => .missing) "doc.pdf" "pypdf2" :=
  C10_non_default_method fsHello "doc.pdf" "unstructured" (by decide)
